import Mathlib

/-!
Verification of the JSBSim state-propagation subsystem specification
against a shallow embedding of the C++ sources
(FGMassBalance.h, FGInertial.cpp, FGPropagate.h, FGStateSpace.cpp).

Doubles are modelled as real numbers; C++ 1-based vector indices
map to `Fin 3` indices 0,1,2.
-/

namespace JSBSim

/-- `FGColumnVector3`: a 3-component column vector of doubles.  The C++
class is 1-based (`v(1) .. v(3)`); here index `i : Fin 3` holds the
C++ component `i+1`. -/
def FGColumnVector3 : Type := Fin 3 → ℝ

/-- `FGMatrix33`: a 3x3 matrix of doubles, fields in the row-major order
of the C++ constructor `FGMatrix33(m11,m12,m13,m21,m22,m23,m31,m32,m33)`. -/
structure FGMatrix33 where
  e11 : ℝ
  e12 : ℝ
  e13 : ℝ
  e21 : ℝ
  e22 : ℝ
  e23 : ℝ
  e31 : ℝ
  e32 : ℝ
  e33 : ℝ

/-- `slugtolb` conversion constant from FGJSBBase (that header is an
external collaborator of the files embedded here; the value is the
JSBSim constant, pounds per slug). -/
def slugtolb : ℝ := 32.174049

/-- The `esShape` enumeration of `FGMassBalance::PointMass`. -/
inductive esShape where
  | esUnspecified
  | esTube
  | esCylinder
  | esSphere
  | esBall
deriving DecidableEq

/-- The `PointMass` record nested in `FGMassBalance` (FGMassBalance.h):
weight in pounds, radius and length in feet, a shape kind and the
derived inertia matrix. -/
structure PointMass where
  eShapeType : esShape
  Location : FGColumnVector3
  Weight : ℝ
  Radius : ℝ
  Length : ℝ
  mPMInertia : FGMatrix33

/-- The three diagonal assignments of the `esSphere` case of
`PointMass::CalculateShapeInertia`:
`mPMInertia(1,1) = (Weight/(slugtolb*3))*Radius*Radius*2` and the two
copies onto (2,2) and (3,3). -/
noncomputable def sphereAssign (W R : ℝ) (m : FGMatrix33) : FGMatrix33 :=
  let i11 := (W / (slugtolb * 3)) * R * R * 2
  { m with e11 := i11, e22 := i11, e33 := i11 }

/-- The three diagonal assignments of the `esBall` case of
`PointMass::CalculateShapeInertia`:
`mPMInertia(1,1) = (Weight/(slugtolb*5))*Radius*Radius*2` and the two
copies onto (2,2) and (3,3). -/
noncomputable def ballAssign (W R : ℝ) (m : FGMatrix33) : FGMatrix33 :=
  let i11 := (W / (slugtolb * 5)) * R * R * 2
  { m with e11 := i11, e22 := i11, e33 := i11 }

/-- The two diagonal assignments of the `esTube` case. -/
noncomputable def tubeAssign (W R L : ℝ) (m : FGMatrix33) : FGMatrix33 :=
  let i11 := (W / slugtolb) * R * R
  let i22 := (W / (slugtolb * 12)) * (6 * R * R + L * L)
  { m with e11 := i11, e22 := i22, e33 := i22 }

/-- The two diagonal assignments of the `esCylinder` case. -/
noncomputable def cylinderAssign (W R L : ℝ) (m : FGMatrix33) : FGMatrix33 :=
  let i11 := (W / (slugtolb * 2)) * R * R
  let i22 := (W / (slugtolb * 12)) * (3 * R * R + L * L)
  { m with e11 := i11, e22 := i22, e33 := i22 }

/-- `PointMass::CalculateShapeInertia` (FGMassBalance.h).  The C++
`switch` has no `break` at the end of the `esSphere` case, so control
falls through into the `esBall` case: the sphere assignments are
executed and then immediately followed by the ball assignments, which
overwrite the same three diagonal entries. -/
noncomputable def PointMass.CalculateShapeInertia (pm : PointMass) : PointMass :=
  match pm.eShapeType with
  | .esTube => { pm with mPMInertia := tubeAssign pm.Weight pm.Radius pm.Length pm.mPMInertia }
  | .esCylinder => { pm with mPMInertia := cylinderAssign pm.Weight pm.Radius pm.Length pm.mPMInertia }
  | .esSphere =>
      { pm with mPMInertia := ballAssign pm.Weight pm.Radius (sphereAssign pm.Weight pm.Radius pm.mPMInertia) }
  | .esBall => { pm with mPMInertia := ballAssign pm.Weight pm.Radius pm.mPMInertia }
  | .esUnspecified => pm

/-- `FGMassBalance::GetPointmassInertia` (FGMassBalance.h lines 137-150).
`StructuralToBody` is declared in the header but defined in
FGMassBalance.cpp, which is not among the embedded sources, so it is
taken as a parameter; the function first applies it to `r` and then
builds the point-mass inertia matrix from the body-frame coordinates. -/
def GetPointmassInertia (StructuralToBody : FGColumnVector3 → FGColumnVector3)
    (slugs : ℝ) (r : FGColumnVector3) : FGMatrix33 :=
  let v := StructuralToBody r
  let sv : Fin 3 → ℝ := fun i => slugs * v i
  let xx := sv 0 * v 0
  let yy := sv 1 * v 1
  let zz := sv 2 * v 2
  let xy := -(sv 0) * v 1
  let xz := -(sv 0) * v 2
  let yz := -(sv 1) * v 2
  ⟨yy + zz, xy, xz,
   xy, xx + zz, yz,
   xz, yz, xx + yy⟩

/-- `FGColumnVector3::Magnitude` (math/FGColumnVector3, an external
collaborator of the embedded files): the Euclidean norm
`sqrt(v(1)^2 + v(2)^2 + v(3)^2)`. -/
noncomputable def FGColumnVector3.Magnitude (v : FGColumnVector3) : ℝ :=
  Real.sqrt (v 0 * v 0 + v 1 * v 1 + v 2 * v 2)

/-- The mutable state and planetary constants of `FGInertial`
(FGInertial.cpp).  `RotationRate .. b` are the Earth constants set by
the constructor; `earthPosAngle` and `gAccel` are the per-step mutable
members. -/
structure FGInertial where
  RotationRate : ℝ
  GM : ℝ
  RadiusReference : ℝ
  C2_0 : ℝ
  J2 : ℝ
  a : ℝ
  b : ℝ
  earthPosAngle : ℝ
  gAccelReference : ℝ
  gAccel : ℝ

/-- The `FGInertial` constructor (FGInertial.cpp lines 57-89): the
built-in WGS84 Earth defaults. -/
noncomputable def FGInertial.construct : FGInertial :=
  let RotationRate : ℝ := 0.00007292115
  let GM : ℝ := 14.07644180e15
  let RadiusReference : ℝ := 20925650.00
  { RotationRate := RotationRate
    GM := GM
    RadiusReference := RadiusReference
    C2_0 := -4.84165371736e-04
    J2 := 1.0826266836e-03
    a := 20925646.3255
    b := 20855486.5951
    earthPosAngle := 0.0
    gAccelReference := GM / (RadiusReference * RadiusReference)
    gAccel := GM / (RadiusReference * RadiusReference) }

/-- `FGInertial::GetGAccel` (FGInertial.cpp lines 131-134):
`return GM/(r*r)`. -/
noncomputable def FGInertial.GetGAccel (s : FGInertial) (r : ℝ) : ℝ :=
  s.GM / (r * r)

/-- `FGInertial::GetGravityJ2` (FGInertial.cpp lines 143-162).  `lat` is
the value returned by `Propagate->GetLatitude()` (the current latitude
of the propagation state, an input here). -/
noncomputable def FGInertial.GetGravityJ2 (s : FGInertial) (lat : ℝ)
    (position : FGColumnVector3) : FGColumnVector3 :=
  let r := position.Magnitude
  let sinLat := Real.sin lat
  let preCommon := 1.5 * s.J2 * (s.a / r) * (s.a / r)
  let xy := 1.0 - 5.0 * (sinLat * sinLat)
  let z := 3.0 - 5.0 * (sinLat * sinLat)
  let GMOverr2 := s.GM / (r * r)
  ![-GMOverr2 * ((1.0 + preCommon * xy) * position 0 / r),
    -GMOverr2 * ((1.0 + preCommon * xy) * position 1 / r),
    -GMOverr2 * ((1.0 + preCommon * z) * position 2 / r)]

/-- `FGInertial::InitModel` (FGInertial.cpp lines 100-107).  `baseOk` is
the result of the base-class `FGModel::InitModel()` call (FGModel is an
external collaborator): on base failure the method returns false before
touching `earthPosAngle`. -/
def FGInertial.InitModel (s : FGInertial) (baseOk : Bool) : FGInertial × Bool :=
  if baseOk then ({ s with earthPosAngle := 0.0 }, true) else (s, false)

/-- `FGInertial::Run` (FGInertial.cpp lines 111-127).  `baseRun` is the
result of `FGModel::Run()` (true means "nothing to do"/frozen),
`holding` the result of `FDMExec->Holding()`, `dt` the value of
`FDMExec->GetDeltaT()` and `radius` the value of
`Propagate->GetRadius()` — all supplied by external collaborators. -/
noncomputable def FGInertial.Run (s : FGInertial)
    (baseRun holding : Bool) (dt radius : ℝ) : FGInertial × Bool :=
  if baseRun then (s, true)
  else if holding then (s, false)
  else
    ({ s with gAccel := s.GetGAccel radius
              earthPosAngle := s.earthPosAngle + dt * s.RotationRate }, false)

/-- One call made to the `FGInertial` model: either `InitModel` (with
the base-class result) or `Run` (with the collaborator inputs of that
step). -/
inductive InertialEvent where
  | init (baseOk : Bool)
  | run (baseRun holding : Bool) (dt radius : ℝ)

/-- The state reached after one `InertialEvent` call. -/
noncomputable def inertialStep (s : FGInertial) : InertialEvent → FGInertial
  | .init ok => (s.InitModel ok).1
  | .run b h dt r => (s.Run b h dt r).1

/-- An event is a `run` whose time step `dt` is nonnegative. -/
def nonnegRunEvent : InertialEvent → Prop
  | .init _ => False
  | .run _ _ dt _ => 0 ≤ dt

/-- Modelled from the spec: `FGLocation` (math/FGLocation is not among
the embedded sources).  §4.2 describes it as an ellipsoidal/geocentric
ECEF position with a radius accessor; latitude, longitude and the
cached geocentric radius are recorded here, `GetRadius` returning the
stored radius. -/
structure FGLocation where
  mLat : ℝ
  mLon : ℝ
  mRadius : ℝ

/-- The stored geocentric radius of an `FGLocation` (distance from the
Earth center, feet). -/
def FGLocation.GetRadius (l : FGLocation) : ℝ := l.mRadius

/-- `FGQuaternion` (math/FGQuaternion, external collaborator of
FGPropagate.h): four double components. -/
structure FGQuaternion where
  q1 : ℝ
  q2 : ℝ
  q3 : ℝ
  q4 : ℝ

/-- `FGPropagate::VehicleState` (FGPropagate.h lines 119-157): the
complete propagation state, with the four `deque` derivative-history
members modelled as lists (front of the list = front of the deque). -/
structure VehicleState where
  vLocation : FGLocation
  vUVW : FGColumnVector3
  vPQR : FGColumnVector3
  vPQRi : FGColumnVector3
  qAttitudeLocal : FGQuaternion
  qAttitudeECI : FGQuaternion
  vInertialVelocity : FGColumnVector3
  vInertialPosition : FGColumnVector3
  dqPQRdot : List FGColumnVector3
  dqUVWdot : List FGColumnVector3
  dqInertialVelocity : List FGColumnVector3
  dqQtrndot : List FGQuaternion

/-- `std::deque::resize(n, value)`: keep the first `n` entries when
shrinking, append copies of `value` at the back when growing. -/
def dequeResize {α : Type} (l : List α) (n : ℕ) (a : α) : List α :=
  if n ≤ l.length then l.take n else l ++ List.replicate (n - l.length) a

/-- The part of `FGPropagate` the embedded member functions touch: its
`VState` member. -/
structure FGPropagate where
  VState : VehicleState

/-- The all-zero `FGColumnVector3(0.0,0.0,0.0)`. -/
def zeroVec3 : FGColumnVector3 := fun _ => 0

/-- `FGPropagate::SetVState` (FGPropagate.h lines 651-663): copies
`vLocation`, `vUVW`, `vPQR`, `qAttitudeLocal` and `qAttitudeECI` from
the argument, then resizes the four derivative-history deques to 4
entries padded with zero vectors. -/
def FGPropagate.SetVState (s : FGPropagate) (vstate : VehicleState) : FGPropagate :=
  { s with VState :=
    { s.VState with
        vLocation := vstate.vLocation
        vUVW := vstate.vUVW
        vPQR := vstate.vPQR
        qAttitudeLocal := vstate.qAttitudeLocal
        qAttitudeECI := vstate.qAttitudeECI
        dqPQRdot := dequeResize s.VState.dqPQRdot 4 zeroVec3
        dqUVWdot := dequeResize s.VState.dqUVWdot 4 zeroVec3
        dqInertialVelocity := dequeResize s.VState.dqInertialVelocity 4 zeroVec3
        dqQtrndot := dequeResize s.VState.dqQtrndot 4 ⟨0, 0, 0, 0⟩ } }

/-- `FGPropagate::GetRadius` (FGPropagate.h lines 519-523):
`if (VState.vLocation.GetRadius() == 0) return 1.0; else return
VState.vLocation.GetRadius();`. -/
noncomputable def FGPropagate.GetRadius (s : FGPropagate) : ℝ :=
  if s.VState.vLocation.GetRadius = 0 then 1.0 else s.VState.vLocation.GetRadius

/-- `FGPropagate::SetPQR` (FGPropagate.h lines 673-677): writes
component `i` (C++ 1-based) of `VState.vPQR` only when `1 ≤ i ≤ 3`,
otherwise does nothing. -/
def FGPropagate.SetPQR (s : FGPropagate) (i : ℕ) (val : ℝ) : FGPropagate :=
  if h : 1 ≤ i ∧ i ≤ 3 then
    { s with VState := { s.VState with
        vPQR := Function.update s.VState.vPQR ⟨i - 1, by omega⟩ val } }
  else s

/-- `FGPropagate::SetUVW` (FGPropagate.h lines 679-683): writes
component `i` (C++ 1-based) of `VState.vUVW` only when `1 ≤ i ≤ 3`,
otherwise does nothing. -/
def FGPropagate.SetUVW (s : FGPropagate) (i : ℕ) (val : ℝ) : FGPropagate :=
  if h : 1 ≤ i ∧ i ≤ 3 then
    { s with VState := { s.VState with
        vUVW := Function.update s.VState.vUVW ⟨i - 1, by omega⟩ val } }
  else s

/-- `FGStateSpace::ComponentVector` (declared in FGStateSpace.h, which
is not among the embedded sources): a vector of named components that
read and write pieces of the flight-dynamics-model state `σ`.  Only the
operations FGStateSpace.cpp calls are recorded: `get`/`set` of one
component, `setAll` (the `set(vector<double>)` overload) and the
component count. -/
structure ComponentVector (σ : Type) where
  size : ℕ
  get : σ → ℕ → ℝ
  set : ℕ → ℝ → σ → σ
  setAll : List ℝ → σ → σ

/-- The `FGStateSpace` context used by FGStateSpace.cpp: the
flight-dynamics model `m_fdm` (its `Run` and `Setdt` entry points over
an abstract model state `σ`) and the three component vectors `x`, `u`,
`y`. -/
structure FGStateSpace (σ : Type) where
  run : σ → σ
  setdt : ℝ → σ → σ
  x : ComponentVector σ
  u : ComponentVector σ
  y : ComponentVector σ

/-- The body of the inner loop of `FGStateSpace::numericalJacobian`
(FGStateSpace.cpp lines 57-86) for one output index `i` and one
perturbed index `j`: the four restore/perturb/Run/observe evaluations,
the stencil combination, and the final restore, threading the model
state through in program order.  `yv` is the observed component vector
(`y` in the C++ parameter list) and `xv` the perturbed one (`x`). -/
noncomputable def numericalJacobianEntry {σ : Type} (run : σ → σ)
    (yv xv : ComponentVector σ) (y0 x0 : List ℝ) (h : ℝ) (i j : ℕ)
    (s : σ) : ℝ × σ :=
  let s1 := yv.setAll y0 (xv.setAll x0 s)
  let s1 := run (xv.set j (xv.get s1 j + h) s1)
  let f1 := yv.get s1 i
  let s2 := yv.setAll y0 (xv.setAll x0 s1)
  let s2 := run (xv.set j (xv.get s2 j + 2 * h) s2)
  let f2 := yv.get s2 i
  let s3 := yv.setAll y0 (xv.setAll x0 s2)
  let s3 := run (xv.set j (xv.get s3 j - h) s3)
  let fn1 := yv.get s3 i
  let s4 := yv.setAll y0 (xv.setAll x0 s3)
  let s4 := run (xv.set j (xv.get s4 j - 2 * h) s4)
  let fn2 := yv.get s4 i
  let Jij := (8 * (f1 - fn1) - (f2 - fn2)) / (12 * h)
  (Jij, yv.setAll y0 (xv.setAll x0 s4))

/-- One row (fixed `i`) of `FGStateSpace::numericalJacobian`: the inner
`for (j=0; j<n; j++)` loop, threading the model state. -/
noncomputable def numericalJacobianRow {σ : Type} (run : σ → σ)
    (yv xv : ComponentVector σ) (y0 x0 : List ℝ) (h : ℝ) (i : ℕ)
    (s : σ) : List ℝ × σ :=
  (List.range xv.size).foldl
    (fun acc j =>
      let r := numericalJacobianEntry run yv xv y0 x0 h i j acc.2
      (acc.1 ++ [r.1], r.2))
    ([], s)

/-- `FGStateSpace::numericalJacobian` (FGStateSpace.cpp lines 48-88):
the `m × n` Jacobian matrix `J`, row `i` over the observed components
of `yv`, column `j` over the perturbed components of `xv`. -/
noncomputable def numericalJacobian {σ : Type} (run : σ → σ)
    (yv xv : ComponentVector σ) (y0 x0 : List ℝ) (h : ℝ)
    (s : σ) : List (List ℝ) × σ :=
  (List.range yv.size).foldl
    (fun acc i =>
      let r := numericalJacobianRow run yv xv y0 x0 h i acc.2
      (acc.1 ++ [r.1], r.2))
    ([], s)

/-- `FGStateSpace::linearize` (FGStateSpace.cpp lines 24-46): fixes
`h = 1e-5`, sets the simulation step size with `m_fdm.Setdt(h)`, and
computes the four Jacobians `A = d(x)/dx`, `B = d(x)/du`,
`C = d(y)/dx`, `D = d(y)/du` with that `h`. -/
noncomputable def FGStateSpace.linearize {σ : Type} (M : FGStateSpace σ)
    (x0 u0 y0 : List ℝ) (s : σ) :
    List (List ℝ) × List (List ℝ) × List (List ℝ) × List (List ℝ) × σ :=
  let h : ℝ := 1e-5
  let s0 := M.setdt h s
  let rA := numericalJacobian M.run M.x M.x x0 x0 h s0
  let rB := numericalJacobian M.run M.x M.u x0 u0 h rA.2
  let rC := numericalJacobian M.run M.y M.x y0 x0 h rB.2
  let rD := numericalJacobian M.run M.y M.u y0 u0 h rC.2
  (rA.1, rB.1, rC.1, rD.1, rD.2)

/-- The Jacobian entry as §4.5 of the spec describes it: `f1`, `f2`,
`fn1`, `fn2` are output component `i` observed after one full
simulation `Run` with the perturbed component `j` set to the absolute
values `x0_j + h`, `x0_j + 2h`, `x0_j − h`, `x0_j − 2h`, each
perturbation applied to the baseline restored by writing `x0` (and
`y0`) back; the entry is `(8(f1−fn1) − (f2−fn2))/(12h)`. -/
noncomputable def claimJacobianEntry {σ : Type} (run : σ → σ)
    (yv xv : ComponentVector σ) (y0 x0 : List ℝ) (h : ℝ) (i j : ℕ)
    (s : σ) : ℝ :=
  let xj := x0.getD j 0
  let evalAt := fun (p : ℝ) (st : σ) => run (xv.set j p (yv.setAll y0 (xv.setAll x0 st)))
  let s1 := evalAt (xj + h) s
  let f1 := yv.get s1 i
  let s2 := evalAt (xj + 2 * h) s1
  let f2 := yv.get s2 i
  let s3 := evalAt (xj - h) s2
  let fn1 := yv.get s3 i
  let s4 := evalAt (xj - 2 * h) s3
  let fn2 := yv.get s4 i
  (8 * (f1 - fn1) - (f2 - fn2)) / (12 * h)

/-- A sample propagation state used to instantiate universally
quantified theorems at a concrete input. -/
def sampleVState : VehicleState :=
  { vLocation := ⟨0, 0, 0⟩
    vUVW := zeroVec3
    vPQR := zeroVec3
    vPQRi := zeroVec3
    qAttitudeLocal := ⟨1, 0, 0, 0⟩
    qAttitudeECI := ⟨1, 0, 0, 0⟩
    vInertialVelocity := zeroVec3
    vInertialPosition := zeroVec3
    dqPQRdot := []
    dqUVWdot := []
    dqInertialVelocity := []
    dqQtrndot := [] }

/-!  ## Theorems -/

/-- Claim C1: for every point mass whose shape kind is `esSphere`
(hollow), `CalculateShapeInertia` computes diagonal inertia entries
equal to the solid-ball formula `(2/5)·(Weight/slugtolb)·Radius²` — the
very matrix the `esBall` assignments produce — rather than the
hollow-sphere formula `(2/3)·(Weight/slugtolb)·Radius²`, because the
sphere case falls through into the ball case without a `break`. -/
theorem sphere_shape_inertia_falls_through_to_ball (pm : PointMass)
    (hshape : pm.eShapeType = .esSphere)
    (hW : pm.Weight ≠ 0) (hR : pm.Radius ≠ 0) :
    (pm.CalculateShapeInertia).mPMInertia = ballAssign pm.Weight pm.Radius pm.mPMInertia
    ∧ (pm.CalculateShapeInertia).mPMInertia.e11 = (2 / 5) * (pm.Weight / slugtolb) * pm.Radius ^ 2
    ∧ (pm.CalculateShapeInertia).mPMInertia.e22 = (2 / 5) * (pm.Weight / slugtolb) * pm.Radius ^ 2
    ∧ (pm.CalculateShapeInertia).mPMInertia.e33 = (2 / 5) * (pm.Weight / slugtolb) * pm.Radius ^ 2
    ∧ (pm.CalculateShapeInertia).mPMInertia.e11 ≠ (2 / 3) * (pm.Weight / slugtolb) * pm.Radius ^ 2 := by
  have hs : slugtolb ≠ 0 := by norm_num [slugtolb]
  have hval : (pm.Weight / (slugtolb * 5)) * pm.Radius * pm.Radius * 2
      = (2 / 5) * (pm.Weight / slugtolb) * pm.Radius ^ 2 := by
    rw [← div_div]
    ring
  have hmat : (pm.CalculateShapeInertia).mPMInertia
      = ballAssign pm.Weight pm.Radius pm.mPMInertia := by
    unfold PointMass.CalculateShapeInertia
    rw [hshape]
    show (ballAssign pm.Weight pm.Radius (sphereAssign pm.Weight pm.Radius pm.mPMInertia)) = _
    simp only [ballAssign, sphereAssign]
  have hx : (pm.Weight / slugtolb) * pm.Radius ^ 2 ≠ 0 :=
    mul_ne_zero (div_ne_zero hW hs) (pow_ne_zero 2 hR)
  have hne : (2 / 5) * (pm.Weight / slugtolb) * pm.Radius ^ 2
      ≠ (2 / 3) * (pm.Weight / slugtolb) * pm.Radius ^ 2 := by
    rw [mul_assoc, mul_assoc]
    intro hcontra
    have h25 : (2 / 5 : ℝ) = 2 / 3 := mul_right_cancel₀ hx hcontra
    norm_num at h25
  refine ⟨hmat, ?_, ?_, ?_, ?_⟩ <;> rw [hmat] <;> simp only [ballAssign] <;>
    first
      | exact hval
      | (rw [hval]; exact hne)

/-- Claim C1 witness: a concrete hollow-sphere point mass of weight 5 lb
and radius 1 ft gets the solid-ball inertia. -/
theorem sphere_shape_inertia_falls_through_to_ball_w :
    (PointMass.CalculateShapeInertia
        ⟨.esSphere, zeroVec3, 5, 1, 2, ⟨0, 0, 0, 0, 0, 0, 0, 0, 0⟩⟩).mPMInertia.e11
      = (2 / 5) * ((5 : ℝ) / slugtolb) * 1 ^ 2 :=
  (sphere_shape_inertia_falls_through_to_ball
    ⟨.esSphere, zeroVec3, 5, 1, 2, ⟨0, 0, 0, 0, 0, 0, 0, 0, 0⟩⟩
    rfl (by norm_num) (by norm_num)).2.1

/-- Claim C6: for every mass `m` (slugs) and structural-frame position
`r`, `GetPointmassInertia m r` first converts `r` to the body frame via
`StructuralToBody` and returns the point-mass inertia tensor whose
diagonal entries are `m` times the sum of squares of the other two
body-frame coordinates and whose off-diagonal entries are minus `m`
times the product of the corresponding two coordinates. -/
theorem getPointmassInertia_pointmass_formula
    (StructuralToBody : FGColumnVector3 → FGColumnVector3)
    (m : ℝ) (r : FGColumnVector3) :
    (GetPointmassInertia StructuralToBody m r).e11
        = m * (StructuralToBody r 1 ^ 2 + StructuralToBody r 2 ^ 2)
    ∧ (GetPointmassInertia StructuralToBody m r).e22
        = m * (StructuralToBody r 0 ^ 2 + StructuralToBody r 2 ^ 2)
    ∧ (GetPointmassInertia StructuralToBody m r).e33
        = m * (StructuralToBody r 0 ^ 2 + StructuralToBody r 1 ^ 2)
    ∧ (GetPointmassInertia StructuralToBody m r).e12
        = -(m * (StructuralToBody r 0 * StructuralToBody r 1))
    ∧ (GetPointmassInertia StructuralToBody m r).e21
        = -(m * (StructuralToBody r 0 * StructuralToBody r 1))
    ∧ (GetPointmassInertia StructuralToBody m r).e13
        = -(m * (StructuralToBody r 0 * StructuralToBody r 2))
    ∧ (GetPointmassInertia StructuralToBody m r).e31
        = -(m * (StructuralToBody r 0 * StructuralToBody r 2))
    ∧ (GetPointmassInertia StructuralToBody m r).e23
        = -(m * (StructuralToBody r 1 * StructuralToBody r 2))
    ∧ (GetPointmassInertia StructuralToBody m r).e32
        = -(m * (StructuralToBody r 1 * StructuralToBody r 2)) := by
  simp only [GetPointmassInertia]
  refine ⟨by ring, by ring, by ring, by ring, by ring, by ring, by ring, by ring, by ring⟩

/-- Claim C4: for every position vector `p` and propagation latitude
`lat`, `GetGravityJ2 p` returns the J2 oblate-Earth gravitational
acceleration in the ECEF frame with no frame transformation of the
result: component `i` equals `−(GM/r²)·(1 + 1.5·J2·(a/r)²·kᵢ)·pᵢ/r`,
where `r = |p|`, `k_x = k_y = 1 − 5·sin²(lat)` and
`k_z = 3 − 5·sin²(lat)`. -/
theorem getGravityJ2_formula (s : FGInertial) (lat : ℝ) (p : FGColumnVector3) :
    s.GetGravityJ2 lat p 0
        = -(s.GM / p.Magnitude ^ 2)
          * (1 + 1.5 * s.J2 * (s.a / p.Magnitude) ^ 2 * (1 - 5 * Real.sin lat ^ 2))
          * (p 0 / p.Magnitude)
    ∧ s.GetGravityJ2 lat p 1
        = -(s.GM / p.Magnitude ^ 2)
          * (1 + 1.5 * s.J2 * (s.a / p.Magnitude) ^ 2 * (1 - 5 * Real.sin lat ^ 2))
          * (p 1 / p.Magnitude)
    ∧ s.GetGravityJ2 lat p 2
        = -(s.GM / p.Magnitude ^ 2)
          * (1 + 1.5 * s.J2 * (s.a / p.Magnitude) ^ 2 * (3 - 5 * Real.sin lat ^ 2))
          * (p 2 / p.Magnitude) := by
  simp only [FGInertial.GetGravityJ2, Matrix.cons_val_zero, Matrix.cons_val_one,
    Matrix.head_cons, Matrix.cons_val_two, Matrix.tail_cons]
  refine ⟨by ring, by ring, by ring⟩

/-- Claim C5: `GetGAccel(r)` returns `GM/r²`; with the built-in WGS84
defaults `GM = 14.07644180e15` and `r = 20925650.00` ft the returned
value is within 1% of 32.17 ft/s². -/
theorem getGAccel_inverse_square_surface_gravity :
    (∀ (s : FGInertial) (r : ℝ), s.GetGAccel r = s.GM / (r * r))
    ∧ FGInertial.construct.GM = 14.07644180e15
    ∧ FGInertial.construct.RadiusReference = 20925650.00
    ∧ |FGInertial.construct.GetGAccel 20925650.00 - 32.17| < 0.01 * 32.17 := by
  refine ⟨fun s r => rfl, rfl, rfl, ?_⟩
  rw [abs_lt]
  norm_num [FGInertial.GetGAccel, FGInertial.construct]

/-- One step of `inertialStep` on a `run` event with nonnegative `dt`
does not decrease `earthPosAngle` and preserves `RotationRate`. -/
lemma inertialStep_run_mono (s : FGInertial) (e : InertialEvent)
    (he : nonnegRunEvent e) (hRR : 0 ≤ s.RotationRate) :
    s.earthPosAngle ≤ (inertialStep s e).earthPosAngle
    ∧ (inertialStep s e).RotationRate = s.RotationRate := by
  cases e with
  | init ok => exact absurd he id
  | run b h dt r =>
    simp only [nonnegRunEvent] at he
    cases b <;> cases h <;>
      simp [inertialStep, FGInertial.Run, le_add_iff_nonneg_right, mul_nonneg he hRR]

/-- Over a trace of `run` events with nonnegative `dt`, `earthPosAngle`
never decreases. -/
lemma earthPosAngle_foldl_mono (evs : List InertialEvent) :
    ∀ s : FGInertial, 0 ≤ s.RotationRate → (∀ e ∈ evs, nonnegRunEvent e) →
      s.earthPosAngle ≤ (evs.foldl inertialStep s).earthPosAngle := by
  induction evs with
  | nil => exact fun s _ _ => le_refl _
  | cons e t ih =>
    intro s hRR hevs
    have h1 := inertialStep_run_mono s e (hevs e (List.mem_cons_self e t)) hRR
    have h2 := ih (inertialStep s e) (h1.2 ▸ hRR)
      (fun e' he' => hevs e' (List.mem_cons_of_mem e he'))
    exact le_trans h1.1 (by simpa using h2)

/-- Claim C7: across every sequence of `InitModel` and `Run` calls the
planetary rotation angle `earthPosAngle` never decreases (over traces
of `Run` calls with nonnegative `dt`): each non-skipped `Run` adds
exactly `dt * RotationRate`, `RotationRate` is fixed by every call and
positive in the built-in configuration, and the angle is set back to
zero only by a (successful) `InitModel`, never by `Run`. -/
theorem earthPosAngle_monotone (s : FGInertial) (evs : List InertialEvent)
    (hRR : 0 ≤ s.RotationRate)
    (hevs : ∀ e ∈ evs, nonnegRunEvent e) :
    s.earthPosAngle ≤ (evs.foldl inertialStep s).earthPosAngle
    ∧ (∀ dt radius : ℝ, ((s.Run false false dt radius).1).earthPosAngle
          = s.earthPosAngle + dt * s.RotationRate)
    ∧ (∀ (b h : Bool) (dt radius : ℝ),
          ((s.Run b h dt radius).1).RotationRate = s.RotationRate)
    ∧ (∀ ok : Bool, ((s.InitModel ok).1).RotationRate = s.RotationRate)
    ∧ ((s.InitModel true).1).earthPosAngle = 0
    ∧ FGInertial.construct.RotationRate = 0.00007292115
    ∧ 0 < FGInertial.construct.RotationRate := by
  refine ⟨earthPosAngle_foldl_mono evs s hRR hevs, ?_, ?_, ?_, ?_, rfl, ?_⟩
  · intro dt radius; simp [FGInertial.Run]
  · intro b h dt radius; cases b <;> cases h <;> simp [FGInertial.Run]
  · intro ok; cases ok <;> simp [FGInertial.InitModel]
  · norm_num [FGInertial.InitModel]
  · norm_num [FGInertial.construct]

/-- Claim C7 witness: from the built-in configuration, one non-held
`Run` of one second does not decrease the rotation angle. -/
theorem earthPosAngle_monotone_w :
    FGInertial.construct.earthPosAngle
      ≤ (([InertialEvent.run false false 1 20925650]).foldl inertialStep
          FGInertial.construct).earthPosAngle :=
  (earthPosAngle_monotone FGInertial.construct
    [InertialEvent.run false false 1 20925650]
    (by norm_num [FGInertial.construct])
    (by intro e he
        simp only [List.mem_singleton] at he
        subst he
        simp [nonnegRunEvent])).1

/-- Claim C8: if the base-class `Run` reports nothing to do (frozen) or
the executive is holding, `FGInertial::Run` returns immediately with
the whole model state unchanged — in particular `gAccel` and
`earthPosAngle` are unchanged. -/
theorem inertial_run_skip_no_effect (s : FGInertial) (b h : Bool)
    (dt radius : ℝ) (hskip : b = true ∨ h = true) :
    (s.Run b h dt radius).1 = s
    ∧ ((s.Run b h dt radius).1).gAccel = s.gAccel
    ∧ ((s.Run b h dt radius).1).earthPosAngle = s.earthPosAngle := by
  have hs : (s.Run b h dt radius).1 = s := by
    rcases hskip with hb | hh
    · subst hb; simp [FGInertial.Run]
    · subst hh; cases b <;> simp [FGInertial.Run]
  exact ⟨hs, by rw [hs], by rw [hs]⟩

/-- Claim C8 witness: a frozen `Run` from the built-in configuration
leaves the state unchanged. -/
theorem inertial_run_skip_no_effect_w :
    (FGInertial.construct.Run true false 1 20925650).1 = FGInertial.construct :=
  (inertial_run_skip_no_effect FGInertial.construct true false 1 20925650
    (Or.inl rfl)).1

/-- Claim C9: `GetRadius()` never returns zero: when the stored
location radius is zero it returns the fallback 1.0, otherwise it
returns the stored radius. -/
theorem getRadius_never_zero (s : FGPropagate) :
    s.GetRadius ≠ 0
    ∧ (s.VState.vLocation.GetRadius = 0 → s.GetRadius = 1)
    ∧ (s.VState.vLocation.GetRadius ≠ 0 → s.GetRadius = s.VState.vLocation.GetRadius) := by
  by_cases h : s.VState.vLocation.GetRadius = 0
  · simp only [FGPropagate.GetRadius, h, if_pos]
    norm_num
  · simp [FGPropagate.GetRadius, h]

/-- Claim C9 witness: a state whose stored location radius is zero
yields radius 1. -/
theorem getRadius_never_zero_w :
    (FGPropagate.mk sampleVState).GetRadius = 1 :=
  (getRadius_never_zero (FGPropagate.mk sampleVState)).2.1 rfl

/-- Claim C10: for every index `i` outside 1..3, `SetPQR(i,v)` and
`SetUVW(i,v)` leave the vehicle state completely unchanged; for `i` in
1..3 only component `i` of the corresponding vector changes and every
other part of the state is untouched. -/
theorem setPQR_setUVW_guarded (s : FGPropagate) (i : ℕ) (v : ℝ) :
    (¬(1 ≤ i ∧ i ≤ 3) → s.SetPQR i v = s ∧ s.SetUVW i v = s)
    ∧ ((hge : 1 ≤ i) → (hle : i ≤ 3) →
        (s.SetPQR i v).VState.vPQR ⟨i - 1, by omega⟩ = v
        ∧ (∀ k : Fin 3, (k : ℕ) ≠ i - 1 →
            (s.SetPQR i v).VState.vPQR k = s.VState.vPQR k)
        ∧ (s.SetPQR i v).VState.vUVW = s.VState.vUVW
        ∧ (s.SetPQR i v).VState.vLocation = s.VState.vLocation
        ∧ (s.SetPQR i v).VState.vPQRi = s.VState.vPQRi
        ∧ (s.SetPQR i v).VState.qAttitudeLocal = s.VState.qAttitudeLocal
        ∧ (s.SetPQR i v).VState.qAttitudeECI = s.VState.qAttitudeECI
        ∧ (s.SetPQR i v).VState.vInertialVelocity = s.VState.vInertialVelocity
        ∧ (s.SetPQR i v).VState.vInertialPosition = s.VState.vInertialPosition
        ∧ (s.SetUVW i v).VState.vUVW ⟨i - 1, by omega⟩ = v
        ∧ (∀ k : Fin 3, (k : ℕ) ≠ i - 1 →
            (s.SetUVW i v).VState.vUVW k = s.VState.vUVW k)
        ∧ (s.SetUVW i v).VState.vPQR = s.VState.vPQR
        ∧ (s.SetUVW i v).VState.vLocation = s.VState.vLocation) := by
  constructor
  · intro hout
    simp [FGPropagate.SetPQR, FGPropagate.SetUVW, hout]
  · intro hge hle
    have hin : 1 ≤ i ∧ i ≤ 3 := ⟨hge, hle⟩
    simp only [FGPropagate.SetPQR, FGPropagate.SetUVW, dif_pos hin]
    repeat' apply And.intro
    all_goals
      first
        | rfl
        | trivial
        | exact Function.update_same _ _ _
        | exact fun k hk => Function.update_noteq (fun hkk => hk (by simp [hkk])) _ _

/-- Claim C10 witness: an out-of-range write (i = 0) is a no-op, and an
in-range write (i = 2) lands in component 2. -/
theorem setPQR_setUVW_guarded_w :
    (FGPropagate.mk sampleVState).SetPQR 0 5 = FGPropagate.mk sampleVState
    ∧ ((FGPropagate.mk sampleVState).SetPQR 2 7).VState.vPQR ⟨1, by norm_num⟩ = 7 :=
  ⟨((setPQR_setUVW_guarded (FGPropagate.mk sampleVState) 0 5).1 (by omega)).1,
   ((setPQR_setUVW_guarded (FGPropagate.mk sampleVState) 2 7).2
      (by norm_num) (by norm_num)).1⟩

/-- Claim C2 counterexample: `SetVState` does not copy `vPQRi`.  With a
target state whose `vPQRi` is the zero vector and an input whose
`vPQRi` is the constant-one vector, after the call the stored `vPQRi`
differs from the input's. -/
theorem setVState_not_complete_cex :
    ((FGPropagate.mk sampleVState).SetVState
        { sampleVState with vPQRi := fun _ => 1 }).VState.vPQRi
      ≠ ({ sampleVState with vPQRi := fun _ => (1 : ℝ) } : VehicleState).vPQRi := by
  intro hcontra
  have h0 := congrFun hcontra 0
  simp [FGPropagate.SetVState, sampleVState, zeroVec3] at h0

/-- Claim C2 amended: `SetVState(s)` copies exactly the five fields
`vLocation`, `vUVW`, `vPQR`, `qAttitudeLocal` and `qAttitudeECI` from
its argument; `vPQRi`, `vInertialVelocity` and `vInertialPosition` keep
their previous values, and the four derivative-history queues are
resized to 4 entries padded with zeros. -/
theorem setVState_copies_primary_state (s : FGPropagate) (v : VehicleState) :
    (s.SetVState v).VState.vLocation = v.vLocation
    ∧ (s.SetVState v).VState.vUVW = v.vUVW
    ∧ (s.SetVState v).VState.vPQR = v.vPQR
    ∧ (s.SetVState v).VState.qAttitudeLocal = v.qAttitudeLocal
    ∧ (s.SetVState v).VState.qAttitudeECI = v.qAttitudeECI
    ∧ (s.SetVState v).VState.vPQRi = s.VState.vPQRi
    ∧ (s.SetVState v).VState.vInertialVelocity = s.VState.vInertialVelocity
    ∧ (s.SetVState v).VState.vInertialPosition = s.VState.vInertialPosition
    ∧ (s.SetVState v).VState.dqPQRdot = dequeResize s.VState.dqPQRdot 4 zeroVec3
    ∧ (s.SetVState v).VState.dqUVWdot = dequeResize s.VState.dqUVWdot 4 zeroVec3
    ∧ (s.SetVState v).VState.dqInertialVelocity
        = dequeResize s.VState.dqInertialVelocity 4 zeroVec3
    ∧ (s.SetVState v).VState.dqQtrndot = dequeResize s.VState.dqQtrndot 4 ⟨0, 0, 0, 0⟩ :=
  ⟨rfl, rfl, rfl, rfl, rfl, rfl, rfl, rfl, rfl, rfl, rfl, rfl⟩

/-- A two-component vector over a simple concrete model state (a pair
of value lists), reading and writing the first list; used to
instantiate the Jacobian theorem at a concrete input. -/
def pairXcv : ComponentVector (List ℝ × List ℝ) :=
  ⟨2, fun s j => s.1.getD j 0, fun j v s => (s.1.set j v, s.2), fun l s => (l, s.2)⟩

/-- A one-component vector over the same concrete model state, reading
and writing the second list. -/
def pairYcv : ComponentVector (List ℝ × List ℝ) :=
  ⟨1, fun s i => s.2.getD i 0, fun i v s => (s.1, s.2.set i v), fun l s => (s.1, l)⟩

/-- Claim C3: for every output index `i` and perturbed index `j`, the
Jacobian entry computed by `numericalJacobian` equals
`(8(f1−fn1) − (f2−fn2))/(12h)` where `f1, f2, fn1, fn2` are output `i`
observed after one full `Run` with component `j` set to `x0_j+h`,
`x0_j+2h`, `x0_j−h`, `x0_j−2h`, each perturbation applied to the
baseline restored by writing `x0` (and `y0`) back, with a final restore
after the fourth evaluation (`claimJacobianEntry` is that
specification); the hypothesis states that reading component `j` of a
freshly restored baseline yields `x0_j`.  Moreover `linearize` fixes
`h = 1e-5` and sets the simulation step size `dt` to that `h` before
computing the four Jacobians. -/
theorem numericalJacobian_stencil {σ : Type} (run : σ → σ)
    (yv xv : ComponentVector σ) (y0 x0 : List ℝ) (h : ℝ) (i j : ℕ) (s : σ)
    (hget : ∀ st : σ, xv.get (yv.setAll y0 (xv.setAll x0 st)) j = x0.getD j 0) :
    (numericalJacobianEntry run yv xv y0 x0 h i j s).1
      = claimJacobianEntry run yv xv y0 x0 h i j s
    ∧ ∀ (M : FGStateSpace σ) (u0 : List ℝ) (st : σ),
        M.linearize x0 u0 y0 st =
          (let s0 := M.setdt 1e-5 st
           let rA := numericalJacobian M.run M.x M.x x0 x0 1e-5 s0
           let rB := numericalJacobian M.run M.x M.u x0 u0 1e-5 rA.2
           let rC := numericalJacobian M.run M.y M.x y0 x0 1e-5 rB.2
           let rD := numericalJacobian M.run M.y M.u y0 u0 1e-5 rC.2
           (rA.1, rB.1, rC.1, rD.1, rD.2)) := by
  constructor
  · simp only [numericalJacobianEntry, claimJacobianEntry, hget]
  · intro M u0 st
    rfl

/-- Claim C3 witness: the stencil shape at a concrete two-state,
one-output model whose `Run` is the identity. -/
theorem numericalJacobian_stencil_w :
    (numericalJacobianEntry id pairYcv pairXcv [0] [1, 2] 1 0 0 ([], [])).1
      = claimJacobianEntry id pairYcv pairXcv [0] [1, 2] 1 0 0 ([], []) :=
  (numericalJacobian_stencil id pairYcv pairXcv [0] [1, 2] 1 0 0 ([], [])
    (fun _ => rfl)).1

end JSBSim
